import Mathlib

/-!
Verification of the ectoplasm AMM core (Pair and Router contracts).

The Rust contracts in `src/dex/pair.rs` and `src/dex/router.rs` are shallowly
embedded here.  `U256` values are modelled as `Nat` together with the explicit
bound `2 ^ 256` enforced by the checked-arithmetic layer.  Calls to external
contracts (the CEP-18 token ledgers and the factory) are modelled by oracle
records carrying the values those calls return, so theorems quantify over
every possible behaviour of the external collaborators.

The arithmetic layer (`SafeMath`, `AmmMath`, `MINIMUM_LIQUIDITY`) and the
embedded LP-token ledger (`LpToken`) live in `src/math.rs` and `src/token.rs`,
which are referenced by the contracts but are not part of the provided
sources; those definitions are modelled from the specification and are marked
as such in their doc comments.
-/

/-- Error type of the DEX, from `src/errors.rs` (codes 1..22). -/
inductive DexError where
  | InsufficientLiquidity
  | InsufficientInputAmount
  | InsufficientOutputAmount
  | InvalidPair
  | PairExists
  | PairNotFound
  | ZeroAddress
  | IdenticalAddresses
  | InsufficientAmount
  | TransferFailed
  | DeadlineExpired
  | ExcessiveSlippage
  | Overflow
  | Underflow
  | DivisionByZero
  | Unauthorized
  | InvalidPath
  | KInvariantViolated
  | InsufficientLiquidityMinted
  | InsufficientLiquidityBurned
  | Locked
  | InvalidFee
  deriving DecidableEq

/-- Numeric code of each error, from the `#[odra_error(code = …)]` attributes
in `src/errors.rs`. -/
def DexError.code : DexError → Nat
  | .InsufficientLiquidity => 1
  | .InsufficientInputAmount => 2
  | .InsufficientOutputAmount => 3
  | .InvalidPair => 4
  | .PairExists => 5
  | .PairNotFound => 6
  | .ZeroAddress => 7
  | .IdenticalAddresses => 8
  | .InsufficientAmount => 9
  | .TransferFailed => 10
  | .DeadlineExpired => 11
  | .ExcessiveSlippage => 12
  | .Overflow => 13
  | .Underflow => 14
  | .DivisionByZero => 15
  | .Unauthorized => 16
  | .InvalidPath => 17
  | .KInvariantViolated => 18
  | .InsufficientLiquidityMinted => 19
  | .InsufficientLiquidityBurned => 20
  | .Locked => 21
  | .InvalidFee => 22

instance {ε α : Type} [DecidableEq ε] [DecidableEq α] : DecidableEq (Except ε α) :=
  fun a b =>
    match a, b with
    | .ok x, .ok y =>
      if h : x = y then .isTrue (congrArg Except.ok h)
      else .isFalse (fun hh => h (Except.ok.inj hh))
    | .error x, .error y =>
      if h : x = y then .isTrue (congrArg Except.error h)
      else .isFalse (fun hh => h (Except.error.inj hh))
    | .ok _, .error _ => .isFalse Except.noConfusion
    | .error _, .ok _ => .isFalse Except.noConfusion

/-- Exclusive upper bound of the unsigned 256-bit integer type `U256`. -/
def U256LIMIT : Nat := 2 ^ 256

/-- Rust's `?` operator on `Result`: propagate an error, continue on success. -/
def ebind {α β : Type} (x : Except DexError α) (f : α → Except DexError β) :
    Except DexError β :=
  match x with
  | .error e => .error e
  | .ok a => f a

namespace SafeMath

/-- Modelled from the spec: checked addition over `U256`
("every operation fails explicitly on overflow"); `src/math.rs` is not among
the provided sources. -/
def add (a b : Nat) : Except DexError Nat :=
  if a + b < U256LIMIT then .ok (a + b) else .error .Overflow

/-- Modelled from the spec: checked subtraction over `U256`, failing with
`Underflow` when the subtrahend exceeds the minuend. -/
def sub (a b : Nat) : Except DexError Nat :=
  if b ≤ a then .ok (a - b) else .error .Underflow

/-- Modelled from the spec: checked multiplication over `U256`. -/
def mul (a b : Nat) : Except DexError Nat :=
  if a * b < U256LIMIT then .ok (a * b) else .error .Overflow

/-- Modelled from the spec: checked division over `U256`, failing with
`DivisionByZero` on a zero divisor. -/
def div (a b : Nat) : Except DexError Nat :=
  if b = 0 then .error .DivisionByZero else .ok (a / b)

end SafeMath

/-- Modelled from the spec: the fixed quantity of LP shares permanently locked
at first deposit (`MINIMUM_LIQUIDITY` in `src/math.rs`).  The spec fixes no
numeric value; the Uniswap-V2-standard value 1000 is used, consistent with the
spec's first-mint example (it only requires the value to be below 2000). -/
def MINIMUM_LIQUIDITY : Nat := 1000

namespace AmmMath

/-- Modelled from the spec: `quote(amount_a, reserve_a, reserve_b) =
amount_a * reserve_b / reserve_a`, fails if `reserve_a == 0`
(§4.1, `src/math.rs` not among the provided sources). -/
def quote (amountA reserveA reserveB : Nat) : Except DexError Nat :=
  ebind (SafeMath.mul amountA reserveB) fun p =>
  SafeMath.div p reserveA

/-- Modelled from the spec: `get_amount_out` applies the 0.3% fee by scaling:
`amount_in_with_fee = amount_in * 997`; `numerator = amount_in_with_fee *
reserve_out`; `denominator = reserve_in * 1000 + amount_in_with_fee`;
result = `numerator / denominator`; fails on zero reserves. -/
def get_amount_out (amountIn reserveIn reserveOut : Nat) : Except DexError Nat :=
  if reserveIn = 0 ∨ reserveOut = 0 then .error .InsufficientLiquidity
  else
    ebind (SafeMath.mul amountIn 997) fun fee =>
    ebind (SafeMath.mul fee reserveOut) fun num =>
    ebind (SafeMath.mul reserveIn 1000) fun scaled =>
    ebind (SafeMath.add scaled fee) fun den =>
    SafeMath.div num den

/-- Modelled from the spec: `get_amount_in` uses the inverse formula
`numerator = reserve_in * amount_out * 1000`; `denominator =
(reserve_out - amount_out) * 997`; result = `numerator / denominator + 1`;
fails if `amount_out >= reserve_out`. -/
def get_amount_in (amountOut reserveIn reserveOut : Nat) : Except DexError Nat :=
  if reserveOut ≤ amountOut then .error .InsufficientLiquidity
  else
    ebind (SafeMath.mul reserveIn amountOut) fun p =>
    ebind (SafeMath.mul p 1000) fun num =>
    ebind (SafeMath.mul (reserveOut - amountOut) 997) fun den =>
    ebind (SafeMath.div num den) fun q =>
    SafeMath.add q 1

/-- Modelled from the spec: liquidity-share math (§4.1 with the first-mint
accounting of §4.2/§8) — the first deposit mints
`sqrt(amount0 * amount1) - MINIMUM_LIQUIDITY` to the depositor, subsequent
deposits mint `min(amount0 * total_supply / reserve0,
amount1 * total_supply / reserve1)`. -/
def calculate_liquidity (amount0 amount1 reserve0 reserve1 totalSupply : Nat) :
    Except DexError Nat :=
  if totalSupply = 0 then
    ebind (SafeMath.mul amount0 amount1) fun p =>
    SafeMath.sub (Nat.sqrt p) MINIMUM_LIQUIDITY
  else
    ebind (SafeMath.mul amount0 totalSupply) fun p0 =>
    ebind (SafeMath.div p0 reserve0) fun l0 =>
    ebind (SafeMath.mul amount1 totalSupply) fun p1 =>
    ebind (SafeMath.div p1 reserve1) fun l1 =>
    .ok (min l0 l1)

/-- Modelled from the spec: burn computes `liquidity * reserve_i /
total_supply` for each asset, pro rata (§4.1). -/
def calculate_burn_amounts (liquidity reserve0 reserve1 totalSupply : Nat) :
    Except DexError (Nat × Nat) :=
  ebind (SafeMath.mul liquidity reserve0) fun p0 =>
  ebind (SafeMath.div p0 totalSupply) fun a0 =>
  ebind (SafeMath.mul liquidity reserve1) fun p1 =>
  ebind (SafeMath.div p1 totalSupply) fun a1 =>
  .ok (a0, a1)

end AmmMath

/-- Modelled from the spec: the embedded LP-share ledger (`LpToken` in
`src/token.rs`, not among the provided sources) — total supply plus
per-holder balances (§3).  Addresses are modelled as `Nat`. -/
structure LpState where
  totalSupply : Nat
  balances : Nat → Nat

namespace LpState

/-- Modelled from the spec: minting credits `amount` shares to `dst` and grows
the total supply by the same amount. -/
def mintTo (lp : LpState) (dst amount : Nat) : LpState :=
  { totalSupply := lp.totalSupply + amount
    balances := fun a => if a = dst then lp.balances a + amount else lp.balances a }

/-- Modelled from the spec: burning removes `amount` shares from `owner` and
shrinks the total supply by the same amount. -/
def burnFrom (lp : LpState) (owner amount : Nat) : LpState :=
  { totalSupply := lp.totalSupply - amount
    balances := fun a => if a = owner then lp.balances a - amount else lp.balances a }

end LpState

/-- Persistent state of the `Pair` contract (`src/dex/pair.rs`, fields of the
`Pair` struct).  `selfAddr` stands for `env().self_address()`. -/
structure PairState where
  token0 : Nat
  token1 : Nat
  reserve0 : Nat
  reserve1 : Nat
  blockTimestampLast : Nat
  price0CumulativeLast : Nat
  price1CumulativeLast : Nat
  kLast : Nat
  factory : Nat
  locked : Bool
  lp : LpState
  selfAddr : Nat

/-- `Pair::init` (`src/dex/pair.rs` lines 45-69): canonically orders the two
token addresses, zeroes the reserves, unlocks, and initializes the embedded
LP ledger. -/
def pairInit (token0 token1 factory selfAddr : Nat) : PairState :=
  let p := if token0 < token1 then (token0, token1) else (token1, token0)
  { token0 := p.1
    token1 := p.2
    reserve0 := 0
    reserve1 := 0
    blockTimestampLast := 0
    price0CumulativeLast := 0
    price1CumulativeLast := 0
    kLast := 0
    factory := factory
    locked := false
    lp := { totalSupply := 0, balances := fun _ => 0 }
    selfAddr := selfAddr }

/-- Values returned by the external calls `Pair::mint` makes: the CEP-18
balances of the two tokens held by the pair (read once, at the start), and
the block time written by `update_reserves`. -/
structure MintOracle where
  balance0 : Nat
  balance1 : Nat
  blockTime : Nat

/-- `Pair::mint` (`src/dex/pair.rs` lines 117-173): locks, diffs token
balances against stored reserves to infer the deposit, computes liquidity,
on a first mint credits `MINIMUM_LIQUIDITY` shares to the pair itself,
rejects a zero liquidity, credits `dst`, updates reserves, records `k_last`
(the product of the freshly updated reserves), and unlocks. -/
def Pair.mint (s : PairState) (o : MintOracle) (dst : Nat) :
    Except DexError (Nat × PairState) :=
  if s.locked then .error .Locked
  else
    ebind (SafeMath.sub o.balance0 s.reserve0) fun amount0 =>
    ebind (SafeMath.sub o.balance1 s.reserve1) fun amount1 =>
    ebind (AmmMath.calculate_liquidity amount0 amount1 s.reserve0 s.reserve1
      s.lp.totalSupply) fun liquidity =>
    if liquidity = 0 then .error .InsufficientLiquidityMinted
    else
      ebind (SafeMath.mul o.balance0 o.balance1) fun kl =>
      .ok (liquidity,
        { s with
          lp := ((if s.lp.totalSupply = 0 then
                    s.lp.mintTo s.selfAddr MINIMUM_LIQUIDITY
                  else s.lp).mintTo dst liquidity)
          reserve0 := o.balance0, reserve1 := o.balance1,
          blockTimestampLast := o.blockTime, kLast := kl, locked := false })

/-- Values returned by the external calls `Pair::burn` makes: token balances
read at the start, the success of the two outgoing transfers, and the block
time. -/
structure BurnOracle where
  balance0 : Nat
  balance1 : Nat
  transfer0Ok : Bool
  transfer1Ok : Bool
  blockTime : Nat

/-- `Pair::burn` (`src/dex/pair.rs` lines 177-219): locks, reads the LP
shares previously transferred to the pair, computes the pro-rata amounts,
burns the shares, transfers both assets to `dst`, updates reserves to the
post-transfer balances, and unlocks. -/
def Pair.burn (s : PairState) (o : BurnOracle) (_dst : Nat) :
    Except DexError ((Nat × Nat) × PairState) :=
  if s.locked then .error .Locked
  else
    ebind (AmmMath.calculate_burn_amounts (s.lp.balances s.selfAddr) s.reserve0 s.reserve1
      s.lp.totalSupply) fun amounts =>
    if o.transfer0Ok = false then .error .TransferFailed
    else if o.transfer1Ok = false then .error .TransferFailed
    else
      ebind (SafeMath.sub o.balance0 amounts.1) fun nb0 =>
      ebind (SafeMath.sub o.balance1 amounts.2) fun nb1 =>
      .ok (amounts,
        { s with lp := s.lp.burnFrom s.selfAddr (s.lp.balances s.selfAddr),
                 reserve0 := nb0, reserve1 := nb1,
                 blockTimestampLast := o.blockTime, locked := false })

/-- Values returned by the external calls `Pair::swap` makes: the success of
the two optimistic outgoing transfers, the token balances re-read after those
transfers, and the block time. -/
structure SwapOracle where
  transfer0Ok : Bool
  transfer1Ok : Bool
  balance0 : Nat
  balance1 : Nat
  blockTime : Nat

/-- The `amount_in` inference of `Pair::swap` (`src/dex/pair.rs` lines
263-272): the excess of the re-read balance over `reserve - amount_out`,
clamped to zero.  This is the source's
`if balance > SafeMath::sub(reserve, amount_out) { SafeMath::sub(balance, …) }
else { 0 }`; both inner `SafeMath::sub` calls are total because swap checks
`amount_out < reserve` first and the branch gives `balance > reserve -
amount_out`. -/
def amountInCalc (reserve out balance : Nat) : Nat :=
  if reserve - out < balance then balance - (reserve - out) else 0

/-- `Pair::swap` (`src/dex/pair.rs` lines 224-316): locks, validates the
requested outputs, optimistically transfers them, re-reads balances, infers
the inputs, enforces the fee-adjusted k invariant, updates reserves, and
unlocks. -/
def Pair.swap (s : PairState) (o : SwapOracle) (amount0Out amount1Out dst : Nat) :
    Except DexError PairState :=
  if s.locked then .error .Locked
  else if amount0Out = 0 ∧ amount1Out = 0 then .error .InsufficientOutputAmount
  else if s.reserve0 ≤ amount0Out ∨ s.reserve1 ≤ amount1Out then .error .InsufficientLiquidity
  else if dst = s.token0 ∨ dst = s.token1 then .error .InvalidPair
  else if amount0Out ≠ 0 ∧ o.transfer0Ok = false then .error .TransferFailed
  else if amount1Out ≠ 0 ∧ o.transfer1Ok = false then .error .TransferFailed
  else if amountInCalc s.reserve0 amount0Out o.balance0 = 0 ∧
          amountInCalc s.reserve1 amount1Out o.balance1 = 0 then
    .error .InsufficientInputAmount
  else
    ebind (SafeMath.mul o.balance0 1000) fun m0 =>
    ebind (SafeMath.mul (amountInCalc s.reserve0 amount0Out o.balance0) 3) fun f0 =>
    ebind (SafeMath.sub m0 f0) fun adj0 =>
    ebind (SafeMath.mul o.balance1 1000) fun m1 =>
    ebind (SafeMath.mul (amountInCalc s.reserve1 amount1Out o.balance1) 3) fun f1 =>
    ebind (SafeMath.sub m1 f1) fun adj1 =>
    ebind (SafeMath.mul adj0 adj1) fun kNew =>
    ebind (SafeMath.mul s.reserve0 s.reserve1) fun kr =>
    ebind (SafeMath.mul kr 1000000) fun kOld =>
    if kNew < kOld then .error .KInvariantViolated
    else .ok { s with reserve0 := o.balance0, reserve1 := o.balance1,
                      blockTimestampLast := o.blockTime, locked := false }

/-- Values returned by the external calls `Pair::skim` makes. -/
structure SkimOracle where
  balance0 : Nat
  balance1 : Nat
  transfer0Ok : Bool
  transfer1Ok : Bool

/-- `Pair::skim` (`src/dex/pair.rs` lines 319-335): sweeps any balance
surplus over the recorded reserves to `dst`.  It neither checks nor sets the
reentrancy lock and writes no field of the pair's own state; the
`SafeMath::sub(balance, reserve)` calls are total under the `balance >
reserve` guards. -/
def Pair.skim (s : PairState) (o : SkimOracle) (_dst : Nat) : Except DexError PairState :=
  if s.reserve0 < o.balance0 ∧ o.transfer0Ok = false then .error .TransferFailed
  else if s.reserve1 < o.balance1 ∧ o.transfer1Ok = false then .error .TransferFailed
  else .ok s

/-- Values returned by the external calls `Pair::sync` makes. -/
structure SyncOracle where
  balance0 : Nat
  balance1 : Nat
  blockTime : Nat

/-- `Pair::sync` (`src/dex/pair.rs` lines 338-346): resets the recorded
reserves to the current token balances via `update_reserves`; it neither
checks nor sets the reentrancy lock. -/
def Pair.sync (s : PairState) (o : SyncOracle) : Except DexError PairState :=
  .ok { s with reserve0 := o.balance0, reserve1 := o.balance1,
               blockTimestampLast := o.blockTime }

/-- Modelled from the spec: the execution environment applies each invocation
atomically — "either all of its state mutations take effect, or — on any
failure — the entire invocation's effects are discarded as a whole, with no
partial writes observable afterward" (§5, §7).  This wrapper runs one
value-returning entry point transactionally, restoring the pre-state on an
error return. -/
def runTx {α : Type} (f : PairState → Except DexError (α × PairState)) (s : PairState) :
    Except DexError α × PairState :=
  match f s with
  | .ok r => (.ok r.1, r.2)
  | .error e => (.error e, s)

/-- Modelled from the spec: transactional wrapper for an entry point with no
return value, as `runTx`. -/
def runTx0 (f : PairState → Except DexError PairState) (s : PairState) :
    Except DexError Unit × PairState :=
  match f s with
  | .ok s1 => (.ok (), s1)
  | .error e => (.error e, s)

/-- Whether an `Except` result is a success. -/
def isOkE {α : Type} : Except DexError α → Bool
  | .ok _ => true
  | .error _ => false

namespace Router

/-- `Router::sort_tokens` (`src/dex/router.rs` lines 307-313). -/
def sort_tokens (tokenA tokenB : Nat) : Nat × Nat :=
  if tokenA < tokenB then (tokenA, tokenB) else (tokenB, tokenA)

/-- `Router::calculate_liquidity_amounts` (`src/dex/router.rs` lines
342-382).  The reserve lookup `self.get_reserves(token_a, token_b)` resolves
the pair through the external factory and reads its reserves; the result of
that external call (already in `(a, b)` order) is passed in as `reservesQ`,
mirroring the `match reserves { Ok((ra, rb)) if … }` of the source. -/
def calculate_liquidity_amounts (reservesQ : Except DexError (Nat × Nat))
    (aDesired bDesired aMin bMin : Nat) : Except DexError (Nat × Nat) :=
  match reservesQ with
  | .ok rs =>
    if ¬ rs.1 = 0 ∧ ¬ rs.2 = 0 then
      ebind (AmmMath.quote aDesired rs.1 rs.2) fun bOptimal =>
      if bOptimal ≤ bDesired then
        if bOptimal < bMin then .error .InsufficientAmount
        else .ok (aDesired, bOptimal)
      else
        ebind (AmmMath.quote bDesired rs.2 rs.1) fun aOptimal =>
        if aDesired < aOptimal then .error .InsufficientAmount
        else if aOptimal < aMin then .error .InsufficientAmount
        else .ok (aOptimal, bDesired)
    else .ok (aDesired, bDesired)
  | .error _ => .ok (aDesired, bDesired)

/-- Forward walk of `Router::get_amounts_out` (the loop at
`src/dex/router.rs` lines 236-240): each step reads the (in, out)-ordered
reserves of the pool for the adjacent path entries — an external call,
supplied by `reservesOf` — and quotes the next hop's amount. -/
def amounts_out_walk (reservesOf : Nat → Nat → Except DexError (Nat × Nat)) :
    Nat → List Nat → Except DexError (List Nat)
  | x, a :: b :: rest =>
    ebind (reservesOf a b) fun rs =>
    ebind (AmmMath.get_amount_out x rs.1 rs.2) fun y =>
    ebind (amounts_out_walk reservesOf y (b :: rest)) fun tail =>
    .ok (x :: tail)
  | x, _ => .ok [x]

/-- `Router::get_amounts_out` (`src/dex/router.rs` lines 224-243). -/
def get_amounts_out (reservesOf : Nat → Nat → Except DexError (Nat × Nat))
    (amountIn : Nat) (path : List Nat) : Except DexError (List Nat) :=
  if path.length < 2 then .error .InvalidPath
  else amounts_out_walk reservesOf amountIn path

/-- Backward walk of `Router::get_amounts_in` (the loop at
`src/dex/router.rs` lines 258-262), recursing on the path suffix.  The `[]`
inner case is unreachable (the recursive call always returns a list of at
least two entries); the source indexes into an array instead. -/
def amounts_in_walk (reservesOf : Nat → Nat → Except DexError (Nat × Nat)) :
    List Nat → Nat → Except DexError (List Nat)
  | [a, b], y =>
    ebind (reservesOf a b) fun rs =>
    ebind (AmmMath.get_amount_in y rs.1 rs.2) fun x =>
    .ok [x, y]
  | a :: b :: c :: rest, y =>
    ebind (amounts_in_walk reservesOf (b :: c :: rest) y) fun tail =>
    match tail with
    | [] => .error .InvalidPath
    | z :: _ =>
      ebind (reservesOf a b) fun rs =>
      ebind (AmmMath.get_amount_in z rs.1 rs.2) fun x =>
      .ok (x :: tail)
  | _, _ => .error .InvalidPath

/-- `Router::get_amounts_in` (`src/dex/router.rs` lines 246-265). -/
def get_amounts_in (reservesOf : Nat → Nat → Except DexError (Nat × Nat))
    (amountOut : Nat) (path : List Nat) : Except DexError (List Nat) :=
  if path.length < 2 then .error .InvalidPath
  else amounts_in_walk reservesOf path amountOut

end Router

/-- Spec predicate for one transactional invocation (§5, §7): the reentrancy
lock is clear after the call, and an error return leaves the whole persistent
state exactly as it was before the call began. -/
def TxAtomic {α : Type} (f : PairState → Except DexError (α × PairState))
    (s : PairState) : Prop :=
  (runTx f s).2.locked = false ∧
  (isOkE (runTx f s).1 = false → (runTx f s).2 = s)

/-- As `TxAtomic`, for an entry point with no return value. -/
def TxAtomic0 (f : PairState → Except DexError PairState) (s : PairState) : Prop :=
  (runTx0 f s).2.locked = false ∧
  (isOkE (runTx0 f s).1 = false → (runTx0 f s).2 = s)

/-- Example pair state: reserves (1000, 1000), unlocked, LP supply 2000 held
by address 9; the pair's own address is 5 and its tokens are 1 and 2. -/
def swapStateEx : PairState :=
  { token0 := 1, token1 := 2, reserve0 := 1000, reserve1 := 1000,
    blockTimestampLast := 0, price0CumulativeLast := 0, price1CumulativeLast := 0,
    kLast := 0, factory := 3, locked := false,
    lp := { totalSupply := 2000, balances := fun a => if a = 9 then 2000 else 0 },
    selfAddr := 5 }

/-- Example swap oracle: both transfers succeed; after the optimistic
transfer of 90 units of token1 out, the pool holds 1100 of token0 (100 were
sent in) and 910 of token1. -/
def swapOracleEx : SwapOracle :=
  { transfer0Ok := true, transfer1Ok := true, balance0 := 1100, balance1 := 910,
    blockTime := 7 }

/-- The state the example swap produces. -/
def swapStateEx' : PairState :=
  { swapStateEx with reserve0 := 1100, reserve1 := 910, blockTimestampLast := 7,
                     locked := false }

/-- Example mint oracle: the pool holds 1000 of token0 and 4000 of token1. -/
def mintOracleEx : MintOracle :=
  { balance0 := 1000, balance1 := 4000, blockTime := 1 }

/-- Example burn oracle: balances match the example reserves and both
transfers succeed. -/
def burnOracleEx : BurnOracle :=
  { balance0 := 1000, balance1 := 1000, transfer0Ok := true, transfer1Ok := true,
    blockTime := 2 }

/-! ## Lemmas about the checked-arithmetic layer -/

theorem ebind_ok {α β : Type} {x : Except DexError α} {f : α → Except DexError β}
    {b : β} (h : ebind x f = .ok b) : ∃ a, x = .ok a ∧ f a = .ok b := by
  cases x with
  | error e => exact Except.noConfusion h
  | ok a => exact ⟨a, rfl, h⟩

theorem SafeMath.add_ok {a b c : Nat} (h : SafeMath.add a b = .ok c) :
    c = a + b ∧ a + b < U256LIMIT := by
  unfold SafeMath.add at h
  split at h
  · exact ⟨(Except.ok.injEq _ _).mp h.symm, by assumption⟩
  · exact Except.noConfusion h

theorem SafeMath.sub_ok {a b c : Nat} (h : SafeMath.sub a b = .ok c) :
    c = a - b ∧ b ≤ a := by
  unfold SafeMath.sub at h
  split at h
  · exact ⟨(Except.ok.injEq _ _).mp h.symm, by assumption⟩
  · exact Except.noConfusion h

theorem SafeMath.mul_ok {a b c : Nat} (h : SafeMath.mul a b = .ok c) :
    c = a * b ∧ a * b < U256LIMIT := by
  unfold SafeMath.mul at h
  split at h
  · exact ⟨(Except.ok.injEq _ _).mp h.symm, by assumption⟩
  · exact Except.noConfusion h

theorem SafeMath.div_ok {a b c : Nat} (h : SafeMath.div a b = .ok c) :
    c = a / b ∧ b ≠ 0 := by
  unfold SafeMath.div at h
  split at h
  · exact Except.noConfusion h
  · exact ⟨(Except.ok.injEq _ _).mp h.symm, by assumption⟩

theorem AmmMath.quote_ok_of {a ra rb : Nat} (hra : ra ≠ 0)
    (hfit : a * rb < U256LIMIT) :
    AmmMath.quote a ra rb = .ok (a * rb / ra) := by
  simp [AmmMath.quote, ebind, SafeMath.mul, hfit, SafeMath.div, hra]

theorem AmmMath.get_amount_out_ok {a ri ro y : Nat}
    (h : AmmMath.get_amount_out a ri ro = .ok y) :
    ri ≠ 0 ∧ ro ≠ 0 ∧ y = a * 997 * ro / (ri * 1000 + a * 997) := by
  unfold AmmMath.get_amount_out at h
  split at h
  · exact Except.noConfusion h
  rename_i hno
  obtain ⟨fee, hfee, h⟩ := ebind_ok h
  obtain ⟨num, hnum, h⟩ := ebind_ok h
  obtain ⟨scaled, hscaled, h⟩ := ebind_ok h
  obtain ⟨den, hden, h⟩ := ebind_ok h
  obtain ⟨hfe, -⟩ := SafeMath.mul_ok hfee
  subst hfe
  obtain ⟨hne, -⟩ := SafeMath.mul_ok hnum
  subst hne
  obtain ⟨hse, -⟩ := SafeMath.mul_ok hscaled
  subst hse
  obtain ⟨hde, -⟩ := SafeMath.add_ok hden
  subst hde
  obtain ⟨hy, -⟩ := SafeMath.div_ok h
  exact ⟨fun he => hno (Or.inl he), fun he => hno (Or.inr he), hy⟩

theorem AmmMath.get_amount_in_ok {y ri ro z : Nat}
    (h : AmmMath.get_amount_in y ri ro = .ok z) :
    y < ro ∧ z = ri * y * 1000 / ((ro - y) * 997) + 1 := by
  unfold AmmMath.get_amount_in at h
  split at h
  · exact Except.noConfusion h
  rename_i hlt
  obtain ⟨p, hp, h⟩ := ebind_ok h
  obtain ⟨num, hnum, h⟩ := ebind_ok h
  obtain ⟨den, hden, h⟩ := ebind_ok h
  obtain ⟨q, hq, h⟩ := ebind_ok h
  obtain ⟨hpe, -⟩ := SafeMath.mul_ok hp
  subst hpe
  obtain ⟨hne, -⟩ := SafeMath.mul_ok hnum
  subst hne
  obtain ⟨hde, -⟩ := SafeMath.mul_ok hden
  subst hde
  obtain ⟨hqe, -⟩ := SafeMath.div_ok hq
  subst hqe
  obtain ⟨hze, -⟩ := SafeMath.add_ok h
  exact ⟨Nat.lt_of_not_le hlt, hze⟩

/-- The arithmetic heart of the round-trip bound: feeding the floor-divided
output quote back through the rounded-up input formula can exceed the
original input by at most the final `+ 1`. -/
theorem roundtrip_div_le {x ri ro y : Nat}
    (hy : y = x * 997 * ro / (ri * 1000 + x * 997)) (hyro : y < ro) :
    ri * y * 1000 / ((ro - y) * 997) + 1 ≤ x + 1 := by
  have h1 : y * (ri * 1000 + x * 997) ≤ x * 997 * ro := by
    rw [hy]; exact Nat.div_mul_le_self _ _
  have hexp : y * (ri * 1000 + x * 997) = ri * y * 1000 + x * 997 * y := by ring
  rw [hexp] at h1
  have hBsum : x * 997 * (ro - y) + x * 997 * y = x * 997 * ro := by
    rw [← Nat.mul_add, Nat.sub_add_cancel (le_of_lt hyro)]
  have key : ∀ A C D E : Nat, A + D ≤ E → C + D = E → A ≤ C := by
    intro A C D E hAD hCD
    omega
  have h2 : ri * y * 1000 ≤ x * 997 * (ro - y) :=
    key (ri * y * 1000) (x * 997 * (ro - y)) (x * 997 * y) (x * 997 * ro) h1 hBsum
  have h3 : ri * y * 1000 ≤ x * ((ro - y) * 997) := by
    calc ri * y * 1000 ≤ x * 997 * (ro - y) := h2
      _ = x * ((ro - y) * 997) := by ring
  have h4 : 0 < (ro - y) * 997 :=
    Nat.mul_pos (Nat.sub_pos_of_lt hyro) (by norm_num)
  have h5 : ri * y * 1000 / ((ro - y) * 997) ≤ x := by
    have hd := Nat.div_le_div_right (c := (ro - y) * 997) h3
    rwa [Nat.mul_div_cancel x h4] at hd
  omega

/-! ## Success-path characterizations of the Pair entry points -/

theorem Pair.swap_ok_spec {s s' : PairState} {o : SwapOracle} {a0 a1 dst : Nat}
    (h : Pair.swap s o a0 a1 dst = .ok s') :
    s' = { s with reserve0 := o.balance0, reserve1 := o.balance1,
                  blockTimestampLast := o.blockTime, locked := false } ∧
    amountInCalc s.reserve0 a0 o.balance0 * 3 ≤ o.balance0 * 1000 ∧
    amountInCalc s.reserve1 a1 o.balance1 * 3 ≤ o.balance1 * 1000 ∧
    s.reserve0 * s.reserve1 * 1000000 ≤
      (o.balance0 * 1000 - amountInCalc s.reserve0 a0 o.balance0 * 3) *
      (o.balance1 * 1000 - amountInCalc s.reserve1 a1 o.balance1 * 3) := by
  unfold Pair.swap at h
  split at h
  · exact Except.noConfusion h
  split at h
  · exact Except.noConfusion h
  split at h
  · exact Except.noConfusion h
  split at h
  · exact Except.noConfusion h
  split at h
  · exact Except.noConfusion h
  split at h
  · exact Except.noConfusion h
  split at h
  · exact Except.noConfusion h
  obtain ⟨m0, hm0, h⟩ := ebind_ok h
  obtain ⟨f0, hf0, h⟩ := ebind_ok h
  obtain ⟨adj0, hadj0, h⟩ := ebind_ok h
  obtain ⟨m1, hm1, h⟩ := ebind_ok h
  obtain ⟨f1, hf1, h⟩ := ebind_ok h
  obtain ⟨adj1, hadj1, h⟩ := ebind_ok h
  obtain ⟨kNew, hkNew, h⟩ := ebind_ok h
  obtain ⟨kr, hkr, h⟩ := ebind_ok h
  obtain ⟨kOld, hkOld, h⟩ := ebind_ok h
  obtain ⟨hm0e, -⟩ := SafeMath.mul_ok hm0
  obtain ⟨hf0e, -⟩ := SafeMath.mul_ok hf0
  obtain ⟨hadj0e, hle0⟩ := SafeMath.sub_ok hadj0
  obtain ⟨hm1e, -⟩ := SafeMath.mul_ok hm1
  obtain ⟨hf1e, -⟩ := SafeMath.mul_ok hf1
  obtain ⟨hadj1e, hle1⟩ := SafeMath.sub_ok hadj1
  obtain ⟨hkNewe, -⟩ := SafeMath.mul_ok hkNew
  obtain ⟨hkre, -⟩ := SafeMath.mul_ok hkr
  obtain ⟨hkOlde, -⟩ := SafeMath.mul_ok hkOld
  subst hm0e hf0e hadj0e hm1e hf1e hadj1e hkNewe hkre hkOlde
  by_cases hlt :
      (o.balance0 * 1000 - amountInCalc s.reserve0 a0 o.balance0 * 3) *
        (o.balance1 * 1000 - amountInCalc s.reserve1 a1 o.balance1 * 3) <
      s.reserve0 * s.reserve1 * 1000000
  · rw [if_pos hlt] at h
    exact Except.noConfusion h
  · rw [if_neg hlt] at h
    exact ⟨(Except.ok.inj h).symm, hle0, hle1, Nat.le_of_not_lt hlt⟩

theorem Pair.mint_ok_locked {s : PairState} {o : MintOracle} {dst : Nat}
    {r : Nat × PairState} (h : Pair.mint s o dst = .ok r) : r.2.locked = false := by
  unfold Pair.mint at h
  split at h
  · exact Except.noConfusion h
  obtain ⟨a0, -, h⟩ := ebind_ok h
  obtain ⟨a1, -, h⟩ := ebind_ok h
  obtain ⟨liq, -, h⟩ := ebind_ok h
  split at h
  · exact Except.noConfusion h
  obtain ⟨kl, -, h⟩ := ebind_ok h
  have hr := Except.ok.inj h
  subst hr
  rfl

theorem Pair.burn_ok_locked {s : PairState} {o : BurnOracle} {dst : Nat}
    {r : (Nat × Nat) × PairState} (h : Pair.burn s o dst = .ok r) :
    r.2.locked = false := by
  unfold Pair.burn at h
  split at h
  · exact Except.noConfusion h
  obtain ⟨amounts, -, h⟩ := ebind_ok h
  split at h
  · exact Except.noConfusion h
  split at h
  · exact Except.noConfusion h
  obtain ⟨nb0, -, h⟩ := ebind_ok h
  obtain ⟨nb1, -, h⟩ := ebind_ok h
  have hr := Except.ok.inj h
  subst hr
  rfl

/-! ## Claims -/

/-- C1: for every call to `Pair::swap(amount0_out, amount1_out, to)` that
returns successfully, the product of the reserves after the call times
1000000 is at least the product of the reserves before the call times
1000000; moreover the new reserves are exactly the re-read balances and the
fee-adjusted check `(balance0*1000 - 3*amount0_in) * (balance1*1000 -
3*amount1_in) >= reserve0_before * reserve1_before * 1000000` holds at the
point the reserves are updated, so the k invariant never decreases across
any successful swap. -/
theorem c1_swap_k_invariant (s s' : PairState) (o : SwapOracle) (a0 a1 dst : Nat)
    (h : Pair.swap s o a0 a1 dst = .ok s') :
    s.reserve0 * s.reserve1 * 1000000 ≤ s'.reserve0 * s'.reserve1 * 1000000 ∧
    s'.reserve0 = o.balance0 ∧ s'.reserve1 = o.balance1 ∧
    s.reserve0 * s.reserve1 * 1000000 ≤
      (s'.reserve0 * 1000 - 3 * amountInCalc s.reserve0 a0 o.balance0) *
      (s'.reserve1 * 1000 - 3 * amountInCalc s.reserve1 a1 o.balance1) := by
  obtain ⟨hs, hle0, hle1, hk⟩ := Pair.swap_ok_spec h
  subst hs
  have h2 : (o.balance0 * 1000 - amountInCalc s.reserve0 a0 o.balance0 * 3) *
      (o.balance1 * 1000 - amountInCalc s.reserve1 a1 o.balance1 * 3) ≤
      o.balance0 * o.balance1 * 1000000 := by
    calc (o.balance0 * 1000 - amountInCalc s.reserve0 a0 o.balance0 * 3) *
        (o.balance1 * 1000 - amountInCalc s.reserve1 a1 o.balance1 * 3)
        ≤ (o.balance0 * 1000) * (o.balance1 * 1000) :=
          Nat.mul_le_mul (Nat.sub_le _ _) (Nat.sub_le _ _)
      _ = o.balance0 * o.balance1 * 1000000 := by ring
  refine ⟨le_trans hk h2, rfl, rfl, ?_⟩
  show s.reserve0 * s.reserve1 * 1000000 ≤
    (o.balance0 * 1000 - 3 * amountInCalc s.reserve0 a0 o.balance0) *
    (o.balance1 * 1000 - 3 * amountInCalc s.reserve1 a1 o.balance1)
  calc s.reserve0 * s.reserve1 * 1000000
      ≤ (o.balance0 * 1000 - amountInCalc s.reserve0 a0 o.balance0 * 3) *
        (o.balance1 * 1000 - amountInCalc s.reserve1 a1 o.balance1 * 3) := hk
    _ = (o.balance0 * 1000 - 3 * amountInCalc s.reserve0 a0 o.balance0) *
        (o.balance1 * 1000 - 3 * amountInCalc s.reserve1 a1 o.balance1) := by
        rw [Nat.mul_comm (amountInCalc s.reserve0 a0 o.balance0) 3,
            Nat.mul_comm (amountInCalc s.reserve1 a1 o.balance1) 3]

/-- C1 witness: the k-invariant theorem applied to the concrete example
swap (100 of token0 in, 90 of token1 out, on reserves (1000, 1000)). -/
theorem c1_swap_k_invariant_witness :
    swapStateEx.reserve0 * swapStateEx.reserve1 * 1000000 ≤
      swapStateEx'.reserve0 * swapStateEx'.reserve1 * 1000000 ∧
    swapStateEx'.reserve0 = swapOracleEx.balance0 ∧
    swapStateEx'.reserve1 = swapOracleEx.balance1 ∧
    swapStateEx.reserve0 * swapStateEx.reserve1 * 1000000 ≤
      (swapStateEx'.reserve0 * 1000 -
        3 * amountInCalc swapStateEx.reserve0 0 swapOracleEx.balance0) *
      (swapStateEx'.reserve1 * 1000 -
        3 * amountInCalc swapStateEx.reserve1 90 swapOracleEx.balance1) :=
  c1_swap_k_invariant swapStateEx swapStateEx' swapOracleEx 0 90 8 (by rfl)

/-- C2: each of mint, burn and swap, run transactionally under the
all-or-nothing execution model the spec describes, leaves the `locked` flag
false on every exit path, and an error return leaves the entire persistent
state exactly as it was before the call. -/
theorem c2_atomic_lock_release (s : PairState) (oM : MintOracle) (oB : BurnOracle)
    (oS : SwapOracle) (dstM dstB a0 a1 dstS : Nat) (hl : s.locked = false) :
    TxAtomic (fun t => Pair.mint t oM dstM) s ∧
    TxAtomic (fun t => Pair.burn t oB dstB) s ∧
    TxAtomic0 (fun t => Pair.swap t oS a0 a1 dstS) s := by
  refine ⟨?_, ?_, ?_⟩
  · cases hE : Pair.mint s oM dstM with
    | error e =>
      refine ⟨?_, fun _ => ?_⟩
      · simp [TxAtomic, runTx, hE, hl]
      · simp [runTx, hE]
    | ok r =>
      refine ⟨?_, fun hok => ?_⟩
      · simp [TxAtomic, runTx, hE, Pair.mint_ok_locked hE]
      · simp [runTx, hE, isOkE] at hok
  · cases hE : Pair.burn s oB dstB with
    | error e =>
      refine ⟨?_, fun _ => ?_⟩
      · simp [TxAtomic, runTx, hE, hl]
      · simp [runTx, hE]
    | ok r =>
      refine ⟨?_, fun hok => ?_⟩
      · simp [TxAtomic, runTx, hE, Pair.burn_ok_locked hE]
      · simp [runTx, hE, isOkE] at hok
  · cases hE : Pair.swap s oS a0 a1 dstS with
    | error e =>
      refine ⟨?_, fun _ => ?_⟩
      · simp [TxAtomic0, runTx0, hE, hl]
      · simp [runTx0, hE]
    | ok s1 =>
      refine ⟨?_, fun hok => ?_⟩
      · have hs := (Pair.swap_ok_spec hE).1
        simp [TxAtomic0, runTx0, hE, hs]
      · simp [runTx0, hE, isOkE] at hok

/-- C2 witness: atomicity of the three entry points at a concrete state and
concrete oracles. -/
theorem c2_atomic_lock_release_witness :
    TxAtomic (fun t => Pair.mint t mintOracleEx 7) swapStateEx ∧
    TxAtomic (fun t => Pair.burn t burnOracleEx 7) swapStateEx ∧
    TxAtomic0 (fun t => Pair.swap t swapOracleEx 0 90 8) swapStateEx :=
  c2_atomic_lock_release swapStateEx mintOracleEx burnOracleEx swapOracleEx
    7 7 0 90 8 (by rfl)

/-- C3: `Pair::swap` validates in source order — `InsufficientOutputAmount`
when both requested outputs are zero; otherwise `InsufficientLiquidity` when
either requested output is at least the corresponding reserve; otherwise
`InvalidPair` when the recipient is one of the two token addresses; and,
after successful optimistic transfers, `InsufficientInputAmount` when both
inferred inputs (excess of new balance over `reserve - amount_out`, clamped
to zero) are zero. -/
theorem c3_swap_validation (s : PairState) (o : SwapOracle) (a0 a1 dst : Nat)
    (hl : s.locked = false) :
    (a0 = 0 ∧ a1 = 0 → Pair.swap s o a0 a1 dst = .error .InsufficientOutputAmount) ∧
    (¬(a0 = 0 ∧ a1 = 0) → (s.reserve0 ≤ a0 ∨ s.reserve1 ≤ a1) →
      Pair.swap s o a0 a1 dst = .error .InsufficientLiquidity) ∧
    (¬(a0 = 0 ∧ a1 = 0) → a0 < s.reserve0 → a1 < s.reserve1 →
      (dst = s.token0 ∨ dst = s.token1) →
      Pair.swap s o a0 a1 dst = .error .InvalidPair) ∧
    (¬(a0 = 0 ∧ a1 = 0) → a0 < s.reserve0 → a1 < s.reserve1 →
      dst ≠ s.token0 → dst ≠ s.token1 →
      o.transfer0Ok = true → o.transfer1Ok = true →
      amountInCalc s.reserve0 a0 o.balance0 = 0 →
      amountInCalc s.reserve1 a1 o.balance1 = 0 →
      Pair.swap s o a0 a1 dst = .error .InsufficientInputAmount) := by
  refine ⟨?_, ?_, ?_, ?_⟩
  · rintro ⟨h0, h1⟩
    simp [Pair.swap, hl, h0, h1]
  · intro hno hli
    simp [Pair.swap, hl, hno, hli]
  · intro hno hr0 hr1 hpair
    have hnli : ¬(s.reserve0 ≤ a0 ∨ s.reserve1 ≤ a1) := by omega
    simp [Pair.swap, hl, hno, hnli, hpair]
  · intro hno hr0 hr1 hd0 hd1 ht0 ht1 hz0 hz1
    have hnli : ¬(s.reserve0 ≤ a0 ∨ s.reserve1 ≤ a1) := by omega
    have hnp : ¬(dst = s.token0 ∨ dst = s.token1) := not_or.mpr ⟨hd0, hd1⟩
    simp [Pair.swap, hl, hno, hnli, hnp, ht0, ht1, hz0, hz1]

/-- C3 witness: the first validation step fired at a concrete input — a swap
requesting zero outputs fails with `InsufficientOutputAmount`. -/
theorem c3_swap_validation_witness :
    Pair.swap swapStateEx swapOracleEx 0 0 8 = .error .InsufficientOutputAmount :=
  (c3_swap_validation swapStateEx swapOracleEx 0 0 8 (by rfl)).1 ⟨rfl, rfl⟩

/-- C4: the first `Pair::mint` on an empty pool (LP total supply zero) with
deposited amounts `amount0`, `amount1` credits the depositor exactly
`floor(sqrt(amount0 * amount1)) - MINIMUM_LIQUIDITY` LP shares, credits the
pool's own address exactly `MINIMUM_LIQUIDITY` shares, and leaves the LP
total supply at the un-subtracted `floor(sqrt(amount0 * amount1))`. -/
theorem c4_first_mint (s : PairState) (o : MintOracle) (dst amount0 amount1 : Nat)
    (hl : s.locked = false)
    (hts : s.lp.totalSupply = 0)
    (hb0 : o.balance0 = s.reserve0 + amount0)
    (hb1 : o.balance1 = s.reserve1 + amount1)
    (hmul : amount0 * amount1 < U256LIMIT)
    (hmin : MINIMUM_LIQUIDITY < Nat.sqrt (amount0 * amount1))
    (hkl : o.balance0 * o.balance1 < U256LIMIT)
    (hdst : dst ≠ s.selfAddr)
    (hzd : s.lp.balances dst = 0)
    (hzs : s.lp.balances s.selfAddr = 0) :
    ∃ s', Pair.mint s o dst =
        .ok (Nat.sqrt (amount0 * amount1) - MINIMUM_LIQUIDITY, s') ∧
      s'.lp.balances dst = Nat.sqrt (amount0 * amount1) - MINIMUM_LIQUIDITY ∧
      s'.lp.balances s.selfAddr = MINIMUM_LIQUIDITY ∧
      s'.lp.totalSupply = Nat.sqrt (amount0 * amount1) := by
  have hsub0 : SafeMath.sub o.balance0 s.reserve0 = .ok amount0 := by
    rw [hb0]; simp [SafeMath.sub]
  have hsub1 : SafeMath.sub o.balance1 s.reserve1 = .ok amount1 := by
    rw [hb1]; simp [SafeMath.sub]
  have hcl : AmmMath.calculate_liquidity amount0 amount1 s.reserve0 s.reserve1
      0 = .ok (Nat.sqrt (amount0 * amount1) - MINIMUM_LIQUIDITY) := by
    simp [AmmMath.calculate_liquidity, SafeMath.mul, hmul, ebind, SafeMath.sub,
      Nat.le_of_lt hmin]
  have hklm : SafeMath.mul o.balance0 o.balance1 = .ok (o.balance0 * o.balance1) := by
    simp [SafeMath.mul, hkl]
  have hLne : ¬ (Nat.sqrt (amount0 * amount1) - MINIMUM_LIQUIDITY = 0) := by omega
  refine ⟨{ s with
      lp := ((s.lp.mintTo s.selfAddr MINIMUM_LIQUIDITY).mintTo dst
        (Nat.sqrt (amount0 * amount1) - MINIMUM_LIQUIDITY))
      reserve0 := o.balance0, reserve1 := o.balance1,
      blockTimestampLast := o.blockTime,
      kLast := o.balance0 * o.balance1, locked := false }, ?_, ?_, ?_, ?_⟩
  · simp [Pair.mint, hl, hsub0, hsub1, hcl, hklm, hLne, hts, ebind]
  · simp [LpState.mintTo, hdst, hzd]
  · simp [LpState.mintTo, Ne.symm hdst, hzs]
  · simp [LpState.mintTo, hts]
    omega

/-- C4 witness: on an empty pool, depositing `amount0 = 1000` and
`amount1 = 4000` credits the depositor `2000 - MINIMUM_LIQUIDITY` shares,
credits the pool itself `MINIMUM_LIQUIDITY`, and leaves total supply 2000. -/
theorem c4_first_mint_witness :
    ∃ s', Pair.mint (pairInit 1 2 3 5) mintOracleEx 7 =
        .ok (2000 - MINIMUM_LIQUIDITY, s') ∧
      s'.lp.balances 7 = 2000 - MINIMUM_LIQUIDITY ∧
      s'.lp.balances (pairInit 1 2 3 5).selfAddr = MINIMUM_LIQUIDITY ∧
      s'.lp.totalSupply = 2000 := by
  have hsq : Nat.sqrt (1000 * 4000) = 2000 := by
    have h : (1000 * 4000 : ℕ) = 2000 * 2000 := by norm_num
    rw [h, Nat.sqrt_eq]
  obtain ⟨s', h1, h2, h3, h4⟩ :=
    c4_first_mint (pairInit 1 2 3 5) mintOracleEx 7 1000 4000 rfl rfl rfl rfl
      (by decide) (by rw [hsq]; decide) (by decide) (by decide) rfl rfl
  rw [hsq] at h1 h2 h4
  exact ⟨s', h1, h2, h3, h4⟩

/-- C5 counterexample: the claim quantifies over every `amount_in`, but the
checked 256-bit arithmetic of the formula layer fails with `Overflow` once
`amount_in * 997` no longer fits in 256 bits, instead of returning the
claimed floor value. -/
theorem c5_get_amount_out_cex :
    AmmMath.get_amount_out (2 ^ 256 - 1) 1 1 = .error .Overflow ∧
    AmmMath.get_amount_out (2 ^ 256 - 1) 1 1 ≠
      .ok ((2 ^ 256 - 1) * 997 * 1 / (1 * 1000 + (2 ^ 256 - 1) * 997)) := by
  decide

/-- C5 (amended): whenever the three intermediate products of the formula fit
in 256 bits, `get_amount_out(amount_in, reserve_in, reserve_out)` with both
reserves non-zero returns exactly
`floor((amount_in * 997) * reserve_out / (reserve_in * 1000 + amount_in * 997))`,
and it fails on zero reserves. -/
theorem c5_get_amount_out (amountIn reserveIn reserveOut : Nat)
    (h1 : amountIn * 997 < U256LIMIT)
    (h2 : amountIn * 997 * reserveOut < U256LIMIT)
    (h3 : reserveIn * 1000 + amountIn * 997 < U256LIMIT) :
    (reserveIn ≠ 0 → reserveOut ≠ 0 →
      AmmMath.get_amount_out amountIn reserveIn reserveOut =
        .ok (amountIn * 997 * reserveOut / (reserveIn * 1000 + amountIn * 997))) ∧
    (reserveIn = 0 ∨ reserveOut = 0 →
      AmmMath.get_amount_out amountIn reserveIn reserveOut =
        .error .InsufficientLiquidity) := by
  constructor
  · intro hri hro
    have hno : ¬(reserveIn = 0 ∨ reserveOut = 0) := not_or.mpr ⟨hri, hro⟩
    have hm : reserveIn * 1000 < U256LIMIT := by omega
    have hd : ¬(reserveIn * 1000 + amountIn * 997 = 0) := by
      have := Nat.pos_of_ne_zero hri
      omega
    simp [AmmMath.get_amount_out, hno, ebind, SafeMath.mul, SafeMath.add,
      SafeMath.div, h1, h2, hm, h3, hd]
  · intro hz
    simp [AmmMath.get_amount_out, hz]

/-- C5 witness: `get_amount_out(100, 1000, 1000) = 90`, by the theorem
applied at that input. -/
theorem c5_get_amount_out_witness :
    AmmMath.get_amount_out 100 1000 1000 = .ok 90 := by
  have h := (c5_get_amount_out 100 1000 1000 (by decide) (by decide) (by decide)).1
    (by decide) (by decide)
  exact h.trans (by decide)

/-- C6 counterexample: with reserves (1, 1), desired amounts (5, 5),
`amount_a_min = 10` and `amount_b_min = 0`, the first branch returns
`Ok (5, 5)` although the resulting `amount_a = 5` is below
`amount_a_min = 10` — the code never checks the desired amount it passes
through against its minimum, so the claim's "fails whenever either resulting
amount is below its corresponding minimum" is false. -/
theorem c6_calculate_liquidity_amounts_cex :
    Router.calculate_liquidity_amounts (.ok (1, 1)) 5 5 10 0 = .ok (5, 5) ∧
    (5 : Nat) < 10 := by
  decide

/-- C6 (amended): with non-zero reserves, if
`amount_b_optimal = quote(amount_a_desired) <= amount_b_desired` the result
is `(amount_a_desired, amount_b_optimal)`, failing with `InsufficientAmount`
exactly when `amount_b_optimal < amount_b_min` (the returned
`amount_a_desired` is not checked against `amount_a_min`); otherwise the
result is `(amount_a_optimal, amount_b_desired)` with
`amount_a_optimal = quote(amount_b_desired)` — which is always strictly below
`amount_a_desired`, so the defensive `amount_a_optimal > amount_a_desired`
check never fires — failing exactly when `amount_a_optimal < amount_a_min`
(the returned `amount_b_desired` is not checked against `amount_b_min`); with
a zero reserve the desired amounts are returned as-is. -/
theorem c6_calculate_liquidity_amounts (ra rb aDes bDes aMin bMin : Nat)
    (hra : ra ≠ 0) (hrb : rb ≠ 0)
    (hfit1 : aDes * rb < U256LIMIT) (hfit2 : bDes * ra < U256LIMIT) :
    (aDes * rb / ra ≤ bDes →
      (aDes * rb / ra < bMin →
        Router.calculate_liquidity_amounts (.ok (ra, rb)) aDes bDes aMin bMin =
          .error .InsufficientAmount) ∧
      (bMin ≤ aDes * rb / ra →
        Router.calculate_liquidity_amounts (.ok (ra, rb)) aDes bDes aMin bMin =
          .ok (aDes, aDes * rb / ra))) ∧
    (bDes < aDes * rb / ra →
      bDes * ra / rb < aDes ∧
      (bDes * ra / rb < aMin →
        Router.calculate_liquidity_amounts (.ok (ra, rb)) aDes bDes aMin bMin =
          .error .InsufficientAmount) ∧
      (aMin ≤ bDes * ra / rb →
        Router.calculate_liquidity_amounts (.ok (ra, rb)) aDes bDes aMin bMin =
          .ok (bDes * ra / rb, bDes))) ∧
    Router.calculate_liquidity_amounts (.ok (0, rb)) aDes bDes aMin bMin =
      .ok (aDes, bDes) ∧
    Router.calculate_liquidity_amounts (.ok (ra, 0)) aDes bDes aMin bMin =
      .ok (aDes, bDes) := by
  have hbO := AmmMath.quote_ok_of hra hfit1
  have haO := AmmMath.quote_ok_of hrb hfit2
  refine ⟨fun hle => ⟨fun hlt => ?_, fun hge => ?_⟩, fun hgt => ?_, ?_, ?_⟩
  · simp [Router.calculate_liquidity_amounts, hra, hrb, ebind, hbO, hle, hlt]
  · simp [Router.calculate_liquidity_amounts, hra, hrb, ebind, hbO, hle,
      Nat.not_lt.mpr hge]
  · have hdead : bDes * ra / rb < aDes := by
      have hstep : (bDes + 1) * ra ≤ aDes * rb :=
        (Nat.le_div_iff_mul_le (Nat.pos_of_ne_zero hra)).mp (Nat.succ_le_of_lt hgt)
      have hmul : bDes * ra + ra ≤ aDes * rb := by
        rw [← Nat.succ_mul]; exact hstep
      have hlt2 : bDes * ra < aDes * rb := by
        have := Nat.pos_of_ne_zero hra
        omega
      exact (Nat.div_lt_iff_lt_mul (Nat.pos_of_ne_zero hrb)).mpr hlt2
    refine ⟨hdead, fun hlt2 => ?_, fun hge2 => ?_⟩
    · simp [Router.calculate_liquidity_amounts, hra, hrb, ebind, hbO, haO,
        Nat.not_le.mpr hgt, Nat.not_lt.mpr (le_of_lt hdead), hlt2]
    · simp [Router.calculate_liquidity_amounts, hra, hrb, ebind, hbO, haO,
        Nat.not_le.mpr hgt, Nat.not_lt.mpr (le_of_lt hdead), Nat.not_lt.mpr hge2]
  · simp [Router.calculate_liquidity_amounts]
  · simp [Router.calculate_liquidity_amounts]

/-- C6 witness: with reserves (1000, 1000), desired (100, 200) and zero
minima, the first branch applies and returns `(100, 100)`. -/
theorem c6_calculate_liquidity_amounts_witness :
    Router.calculate_liquidity_amounts (.ok (1000, 1000)) 100 200 0 0 =
      .ok (100, 100) := by
  have h := ((c6_calculate_liquidity_amounts 1000 1000 100 200 0 0 (by decide)
    (by decide) (by decide) (by decide)).1 (by decide)).2 (by decide)
  exact h.trans (by decide)

/-- C7 counterexample: on a single pool with reserves (997, 2) and input
1000, `get_amounts_out` quotes output 1, but `get_amounts_in` for output 1
quotes input 1001 > 1000 — the round-up `+ 1` of `get_amount_in` makes the
round trip exceed the original input when the forward division is exact, so
the claimed `get_amounts_in(get_amounts_out(x, path)[-1], path)[0] <= x` is
false. -/
theorem c7_roundtrip_cex :
    Router.get_amounts_out (fun _ _ => .ok (997, 2)) 1000 [0, 1] = .ok [1000, 1] ∧
    Router.get_amounts_in (fun _ _ => .ok (997, 2)) 1 [0, 1] = .ok [1001, 1] ∧
    ¬ (([1001, 1] : List Nat).headD 0 ≤ 1000) := by
  decide

/-- C7 (amended): for a two-entry path with fixed reserves, the round trip
overquotes by at most one unit: the first element of
`get_amounts_in(get_amounts_out(x, path).last, path)` is at most `x + 1`
(for longer paths even this slack compounds and no uniform bound holds). -/
theorem c7_roundtrip_single_hop (reservesOf : Nat → Nat → Except DexError (Nat × Nat))
    (a b x : Nat) (amounts amounts' : List Nat)
    (h1 : Router.get_amounts_out reservesOf x [a, b] = .ok amounts)
    (h2 : Router.get_amounts_in reservesOf (amounts.getLastD 0) [a, b] = .ok amounts') :
    amounts'.headD 0 ≤ x + 1 := by
  unfold Router.get_amounts_out at h1
  rw [if_neg (by simp : ¬([a, b].length < 2))] at h1
  simp only [Router.amounts_out_walk] at h1
  obtain ⟨rs, hrs, h1⟩ := ebind_ok h1
  obtain ⟨y, hy, h1⟩ := ebind_ok h1
  simp only [ebind] at h1
  have has : amounts = [x, y] := (Except.ok.inj h1).symm
  subst has
  unfold Router.get_amounts_in at h2
  rw [if_neg (by simp : ¬([a, b].length < 2))] at h2
  simp only [Router.amounts_in_walk] at h2
  rw [hrs] at h2
  simp only [ebind, List.getLastD] at h2
  obtain ⟨z, hz, h2⟩ := ebind_ok h2
  have has' : amounts' = [z, y] := (Except.ok.inj h2).symm
  subst has'
  obtain ⟨-, -, hye⟩ := AmmMath.get_amount_out_ok hy
  obtain ⟨hyro, hze⟩ := AmmMath.get_amount_in_ok hz
  simp only [List.headD]
  rw [hze]
  exact roundtrip_div_le hye hyro

/-- C7 witness: on reserves (1000, 1000) with input 100 the round trip quotes
[100, 90] forward and [100, 90] backward, and 100 is within the x + 1 bound. -/
theorem c7_roundtrip_single_hop_witness :
    (([100, 90] : List Nat).headD 0) ≤ 100 + 1 :=
  c7_roundtrip_single_hop (fun _ _ => .ok (1000, 1000)) 0 1 100 [100, 90] [100, 90]
    (by decide) (by decide)

/-- C8 counterexample: the claim quantifies over every two constructor
arguments, but `Pair::init` called with two equal addresses stores
`token0 = token1`, so the stored tokens are not strictly ordered or
distinct. -/
theorem c8_init_cex :
    (pairInit 5 5 0 7).token0 = (pairInit 5 5 0 7).token1 ∧
    ¬ (pairInit 5 5 0 7).token0 < (pairInit 5 5 0 7).token1 := by
  decide

/-- C8 (amended): for two distinct constructor arguments, `Pair::init` stores
the smaller as `token0` and the larger as `token1` — strictly ordered and
independent of argument order. -/
theorem c8_init_token_ordering (tokenA tokenB factory selfAddr : Nat)
    (hne : tokenA ≠ tokenB) :
    (pairInit tokenA tokenB factory selfAddr).token0 <
      (pairInit tokenA tokenB factory selfAddr).token1 ∧
    (pairInit tokenA tokenB factory selfAddr).token0 = min tokenA tokenB ∧
    (pairInit tokenA tokenB factory selfAddr).token1 = max tokenA tokenB ∧
    (pairInit tokenA tokenB factory selfAddr).token0 =
      (pairInit tokenB tokenA factory selfAddr).token0 ∧
    (pairInit tokenA tokenB factory selfAddr).token1 =
      (pairInit tokenB tokenA factory selfAddr).token1 := by
  simp only [pairInit]
  split_ifs <;> simp_all <;> omega

/-- C8 witness: the ordering theorem at the concrete arguments (9, 2). -/
theorem c8_init_token_ordering_witness :
    (pairInit 9 2 0 7).token0 < (pairInit 9 2 0 7).token1 ∧
    (pairInit 9 2 0 7).token0 = (pairInit 2 9 0 7).token0 := by
  have h := c8_init_token_ordering 9 2 0 7 (by decide)
  exact ⟨h.1, h.2.2.2.1⟩

/-- C9: `Pair::skim` and `Pair::sync` neither check nor set the reentrancy
lock: for every state — in particular one with `locked = true` — skim either
returns with the pair state untouched or fails with `TransferFailed`, never
with `Locked`, and sync always succeeds, rewriting only the reserves and the
timestamp and leaving `locked` as it was. -/
theorem c9_skim_sync_ignore_lock (s : PairState) (o : SkimOracle) (o' : SyncOracle)
    (dst : Nat) :
    (Pair.skim s o dst = .ok s ∨ Pair.skim s o dst = .error .TransferFailed) ∧
    Pair.skim s o dst ≠ .error .Locked ∧
    Pair.sync s o' = .ok { s with reserve0 := o'.balance0, reserve1 := o'.balance1,
                                  blockTimestampLast := o'.blockTime } ∧
    Pair.sync s o' ≠ .error .Locked := by
  have hsk : Pair.skim s o dst = .ok s ∨ Pair.skim s o dst = .error .TransferFailed := by
    unfold Pair.skim
    split_ifs <;> simp
  refine ⟨hsk, ?_, rfl, by simp [Pair.sync]⟩
  rcases hsk with h | h <;> rw [h] <;> simp

/-- C10: every successful `Pair::swap` leaves the embedded LP-share ledger —
the total supply and every holder's balance — exactly as it was before. -/
theorem c10_swap_frames_lp (s s' : PairState) (o : SwapOracle) (a0 a1 dst : Nat)
    (h : Pair.swap s o a0 a1 dst = .ok s') :
    s'.lp = s.lp ∧ s'.lp.totalSupply = s.lp.totalSupply := by
  obtain ⟨hs, -, -, -⟩ := Pair.swap_ok_spec h
  subst hs
  exact ⟨rfl, rfl⟩

/-- C10 witness: the frame theorem applied to the concrete example swap. -/
theorem c10_swap_frames_lp_witness :
    swapStateEx'.lp = swapStateEx.lp ∧
    swapStateEx'.lp.totalSupply = swapStateEx.lp.totalSupply :=
  c10_swap_frames_lp swapStateEx swapStateEx' swapOracleEx 0 90 8 (by rfl)
